import Mathlib

/-!
Verification of the review-result orchestration engine of the
`shared-actions` repository (PR review bots in
`actions/autonomous-pr-review/scripts/review-agent.mjs` and its two
sibling variants).  JavaScript strings are modelled as Lean `String`
(one element per code point), JavaScript numbers obtained from
`Number(x)` as the inductive `JsNumber` (NaN / infinities / finite
rationals), absent-or-wrongly-typed fields as `Option`, and thrown
exceptions as `Except`.  All definitions are translated directly from
the source files; helper string functions (`strTrim`, `strTake`,
`joinSep`, `toLowerStr`, `containsSub`) model the JavaScript methods
`trim`, `slice(0, n)`, `Array.prototype.join`, `toLowerCase` and
`String.prototype.includes` used there.
-/

/-- Whitespace characters recognised by the model of
JavaScript's `String.prototype.trim`. -/
def isWsChar (c : Char) : Bool :=
  c == ' ' || c == '\t' || c == '\n' || c == '\r'

/-- Drop leading whitespace from a character list. -/
def dropLeadingWs : List Char → List Char
  | [] => []
  | c :: rest => if isWsChar c then dropLeadingWs rest else c :: rest

/-- Trim whitespace from both ends of a character list. -/
def trimList (l : List Char) : List Char :=
  ((dropLeadingWs ((dropLeadingWs l).reverse)).reverse)

/-- Model of JavaScript `s.trim()`. -/
def strTrim (s : String) : String :=
  ⟨trimList s.data⟩

/-- Model of JavaScript `s.slice(0, n)` (first `n` characters). -/
def strTake (s : String) (n : Nat) : String :=
  ⟨s.data.take n⟩

/-- Model of JavaScript `array.join(sep)`. -/
def joinSep (sep : String) : List String → String
  | [] => ""
  | [x] => x
  | x :: y :: rest => x ++ sep ++ joinSep sep (y :: rest)

/-- Model of JavaScript `s.toLowerCase()` (ASCII letters; the
classifier needles are all ASCII). -/
def toLowerStr (s : String) : String :=
  ⟨s.data.map Char.toLower⟩

/-- Does `hay` start with `needle`? -/
def prefixMatch : List Char → List Char → Bool
  | [], _ => true
  | _ :: _, [] => false
  | a :: as, b :: bs => a == b && prefixMatch as bs

/-- Does `hay` have `needle` as a contiguous subsequence? -/
def hasSubSeq (needle : List Char) : List Char → Bool
  | [] => prefixMatch needle []
  | c :: rest => prefixMatch needle (c :: rest) || hasSubSeq needle rest

/-- Model of JavaScript `hay.includes(needle)`. -/
def containsSub (hay needle : String) : Bool :=
  hasSubSeq needle.data hay.data

/-! ## Context Fetcher: diff truncation (`clip`)

From `review-agent.mjs` (single-call variant, lines 203-207):

    function clip(text, maxChars) {
      if (!text) return "";
      if (text.length <= maxChars) return text;
      return text.slice(0, maxChars) + "\n\n...(truncated)...";
    }

and the minimal variant (`part_001`, lines 41-44), which omits the
falsy guard. -/

/-- `clip` from the single-call variant of `review-agent.mjs`. -/
def clip (text : String) (maxChars : Nat) : String :=
  if text = "" then ""
  else if text.length ≤ maxChars then text
  else strTake text maxChars ++ "\n\n...(truncated)..."

/-- `clip` from `part_001`, which has no empty-string guard. -/
def clipMinimal (text : String) (maxChars : Nat) : String :=
  if text.length ≤ maxChars then text
  else strTake text maxChars ++ "\n\n...(truncated)..."

/-- Claim C9: clipping a string of at most `b` characters returns it
unchanged; clipping a longer string returns exactly its first `b`
characters followed by the fixed truncation suffix containing the
visible "...(truncated)..." marker; and the two source variants of
`clip` agree on every string input. -/
theorem clip_truncation (s : String) (b : Nat) :
    (s.length ≤ b → clip s b = s) ∧
    (b < s.length → clip s b = strTake s b ++ "\n\n...(truncated)...") ∧
    clip s b = clipMinimal s b := by
  by_cases hs : s = ""
  · subst hs
    refine ⟨fun _ => rfl, fun h => absurd h (by simp [String.length]), ?_⟩
    simp [clip, clipMinimal, String.length]
  · refine ⟨fun h => ?_, fun h => ?_, ?_⟩
    · simp [clip, hs, h]
    · simp [clip, hs, Nat.not_le.mpr h]
    · simp [clip, clipMinimal, hs]

/-- Witness for C9 at concrete inputs: an 8-character string clipped to
5 characters is truncated with the marker; a short string is returned
unchanged. -/
theorem clip_truncation_witness :
    clip "abcdefgh" 5 = strTake "abcdefgh" 5 ++ "\n\n...(truncated)..." ∧
    clip "abc" 5 = "abc" :=
  ⟨(clip_truncation "abcdefgh" 5).2.1 (by decide),
   (clip_truncation "abc" 5).1 (by decide)⟩

/-! ## Output Normalizer data model

From `review-agent.mjs` (agent-with-schema variant, lines 469-495).
A raw comment models one element of `structured.comments`: each field
is `some _` when the JSON field is present with the expected dynamic
type and `none` otherwise; `line` models the value `Number(comment.line)`
(NaN for non-numeric input). -/

/-- Result of JavaScript `Number(x)`: NaN, an infinity, or a finite
value (modelled as a rational). -/
inductive JsNumber where
  | nan
  | posInf
  | negInf
  | finite (val : ℚ)
deriving DecidableEq, Repr

/-- Model of `Number.isFinite`. -/
def JsNumber.isFiniteNum : JsNumber → Bool
  | JsNumber.finite _ => true
  | _ => false

/-- Model of the JavaScript comparison `x > 0` (false on NaN). -/
def JsNumber.isPosNum : JsNumber → Bool
  | JsNumber.nan => false
  | JsNumber.posInf => true
  | JsNumber.negInf => false
  | JsNumber.finite q => decide (0 < q)

/-- One element of the structured payload's `comments` array. -/
structure RawComment where
  path : Option String
  line : JsNumber
  side : Option String
  body : Option String
  severity : Option String
deriving DecidableEq, Repr

/-- The agent's structured output payload (`message.structured_output`):
`summary` is `some _` when it is a string, `comments` is `some _` when
it is an array. -/
structure ReviewPayload where
  summary : Option String
  comments : Option (List RawComment)
deriving DecidableEq, Repr

/-- A comment after the normalizer's field coercions. -/
structure NormComment where
  path : String
  line : JsNumber
  body : String
  side : String
  severity : String
deriving DecidableEq, Repr

/-- The canonical review object built by `normalizeReviewResult`. -/
structure Review where
  summary : String
  comments : List NormComment
deriving DecidableEq, Repr

/-- Field coercion applied to every raw comment
(`review-agent.mjs` lines 474-481): non-string `path`/`body`/`severity`
become the empty string and are trimmed, `side` becomes "LEFT" exactly
on the exact string "LEFT" and "RIGHT" otherwise. -/
def coerceComment (c : RawComment) : NormComment :=
  { path := strTrim (c.path.getD "")
    line := c.line
    body := strTrim (c.body.getD "")
    side := if c.side = some "LEFT" then "LEFT" else "RIGHT"
    severity := strTrim (c.severity.getD "") }

/-- The validity filter (`review-agent.mjs` line 482):
`comment.path && Number.isFinite(comment.line) && comment.line > 0 && comment.body`. -/
def validComment (c : NormComment) : Bool :=
  c.path != "" && c.line.isFiniteNum && c.line.isPosNum && c.body != ""

/-- The normalizer's `comments` value: coerce every element of the
`comments` array and keep the valid ones; a missing or non-array
`comments` field yields the empty list. -/
def normalizedComments (structured : Option ReviewPayload) : List NormComment :=
  match structured with
  | none => []
  | some p =>
    match p.comments with
    | none => []
    | some cs => (cs.map coerceComment).filter validComment

/-- The normalizer's `summary` value (`review-agent.mjs` lines 485-488):
the trimmed structured summary when it is a string with non-empty trim,
otherwise the trimmed fallback text. -/
def effectiveSummary (structured : Option ReviewPayload) (fallbackText : String) : String :=
  match structured.bind ReviewPayload.summary with
  | some s => if strTrim s ≠ "" then strTrim s else strTrim fallbackText
  | none => strTrim fallbackText

/-- `normalizeReviewResult(structured, fallbackText)` from
`review-agent.mjs` lines 469-495. -/
def normalizeReviewResult (structured : Option ReviewPayload) (fallbackText : String) :
    Option Review :=
  if structured = none ∧ fallbackText = "" then none
  else if normalizedComments structured = [] ∧ effectiveSummary structured fallbackText = ""
    then none
  else some { summary := effectiveSummary structured fallbackText
              comments := normalizedComments structured }

/-- Inversion: a non-null normalization result is built from
`effectiveSummary` and `normalizedComments`, and those are not both
empty. -/
theorem normalizeReviewResult_some_inv (structured : Option ReviewPayload)
    (fallbackText : String) (r : Review)
    (h : normalizeReviewResult structured fallbackText = some r) :
    r = { summary := effectiveSummary structured fallbackText
          comments := normalizedComments structured } ∧
    ¬(normalizedComments structured = [] ∧ effectiveSummary structured fallbackText = "") := by
  unfold normalizeReviewResult at h
  by_cases h1 : structured = none ∧ fallbackText = ""
  · rw [if_pos h1] at h
    exact absurd h (by simp)
  · rw [if_neg h1] at h
    by_cases h2 : normalizedComments structured = [] ∧
        effectiveSummary structured fallbackText = ""
    · rw [if_pos h2] at h
      exact absurd h (by simp)
    · rw [if_neg h2] at h
      exact ⟨(Option.some.inj h).symm, h2⟩

/-- Filtering after mapping is mapping after filtering on the composed
predicate. -/
theorem filter_of_map (f : α → β) (p : β → Bool) (l : List α) :
    (l.map f).filter p = (l.filter fun a => p (f a)).map f := by
  induction l with
  | nil => rfl
  | cons a t ih =>
    by_cases h : p (f a) <;> simp [List.filter, h, ih]

/-- The elements kept by a filter and the elements dropped by it
account for the whole list. -/
theorem length_filter_add_length_not (p : α → Bool) (l : List α) :
    (l.filter p).length + (l.filter fun a => !(p a)).length = l.length := by
  induction l with
  | nil => rfl
  | cons a t ih =>
    by_cases h : p a <;> simp [List.filter, h] <;> omega

/-- The number of raw comments rejected by the validity filter. -/
def invalidCount (cs : List RawComment) : Nat :=
  (cs.filter fun c => !(validComment (coerceComment c))).length

/-- Claim C2: when the structured payload carries a comments array `cs`
and normalization yields a review, that review's comments are exactly
the coercions of the valid candidates of `cs`, kept in their original
order, and their number plus the number of dropped candidates equals
the number of candidates.  The normalizer is a total function: invalid
candidates are dropped with no error and no per-item report. -/
theorem normalizeReviewResult_comment_filter (p : ReviewPayload) (cs : List RawComment)
    (fallbackText : String) (r : Review)
    (hcs : p.comments = some cs)
    (hr : normalizeReviewResult (some p) fallbackText = some r) :
    r.comments = (cs.filter fun c => validComment (coerceComment c)).map coerceComment ∧
    r.comments.length + invalidCount cs = cs.length := by
  have hinv := (normalizeReviewResult_some_inv (some p) fallbackText r hr).1
  have hcomments : r.comments = (cs.map coerceComment).filter validComment := by
    rw [hinv]
    simp [normalizedComments, hcs]
  constructor
  · rw [hcomments, filter_of_map]
  · rw [hcomments, filter_of_map]
    have := length_filter_add_length_not (fun c => validComment (coerceComment c)) cs
    simpa [invalidCount] using this

/-- Sample payload for the C2 witness: one valid comment candidate and
one candidate with no path and a NaN line. -/
def c2SamplePayload : ReviewPayload :=
  { summary := none
    comments := some
      [ { path := some "src/app.ts", line := JsNumber.finite 3, side := none
          body := some "null check needed", severity := some "High" }
      , { path := none, line := JsNumber.nan, side := none
          body := some "no path", severity := none } ] }

/-- The review produced from `c2SamplePayload` with fallback text
"fallback summary". -/
def c2SampleReview : Review :=
  { summary := "fallback summary"
    comments := [ { path := "src/app.ts", line := JsNumber.finite 3
                    body := "null check needed", side := "RIGHT", severity := "High" } ] }

/-- Witness for C2: of the two candidates in `c2SamplePayload` exactly
the valid one survives, in place, and 1 kept + 1 dropped = 2. -/
theorem normalizeReviewResult_comment_filter_witness :
    c2SampleReview.comments =
      ((c2SamplePayload.comments.getD []).filter
        fun c => validComment (coerceComment c)).map coerceComment ∧
    c2SampleReview.comments.length + invalidCount (c2SamplePayload.comments.getD []) =
      (c2SamplePayload.comments.getD []).length :=
  normalizeReviewResult_comment_filter c2SamplePayload (c2SamplePayload.comments.getD [])
    "fallback summary" c2SampleReview rfl (by decide)

/-- Claim C6: normalization returns null exactly when both inputs are
empty/absent or when, after comment filtering and summary fallback,
both the comments list and the summary are empty; consequently every
review it returns has a non-empty comments list or a non-empty
summary. -/
theorem normalizeReviewResult_null_contract (structured : Option ReviewPayload)
    (fallbackText : String) :
    (normalizeReviewResult structured fallbackText = none ↔
      ((structured = none ∧ fallbackText = "") ∨
       (normalizedComments structured = [] ∧
        effectiveSummary structured fallbackText = ""))) ∧
    (∀ r, normalizeReviewResult structured fallbackText = some r →
      r.comments ≠ [] ∨ r.summary ≠ "") := by
  constructor
  · unfold normalizeReviewResult
    by_cases h1 : structured = none ∧ fallbackText = ""
    · rw [if_pos h1]
      simp [h1]
    · rw [if_neg h1]
      by_cases h2 : normalizedComments structured = [] ∧
          effectiveSummary structured fallbackText = ""
      · rw [if_pos h2]
        simp [h1, h2]
      · rw [if_neg h2]
        simp [h1, h2]
  · intro r hr
    have hinv := normalizeReviewResult_some_inv structured fallbackText r hr
    rcases hinv with ⟨hre, hne⟩
    rw [hre]
    by_cases hc : normalizedComments structured = []
    · right
      simpa using fun hs => hne ⟨hc, hs⟩
    · left
      simpa using hc

/-- Witness for C6: empty/absent inputs normalize to null, and the
sample payload from C2 yields a review with a non-empty comments
list. -/
theorem normalizeReviewResult_null_contract_witness :
    normalizeReviewResult none "" = none ∧
    (c2SampleReview.comments ≠ [] ∨ c2SampleReview.summary ≠ "") :=
  ⟨(normalizeReviewResult_null_contract none "").1.mpr (Or.inl ⟨rfl, rfl⟩),
   (normalizeReviewResult_null_contract c2SamplePayload "fallback summary").2
      c2SampleReview (by decide)⟩

/-- The two-tier summary fallback written exactly as claim C7 states
it: the structured summary when its trim is non-empty, otherwise the
trimmed fallback text, otherwise the empty string. -/
def summaryTwoTierSpec (structuredSummary : Option String) (fallbackText : String) : String :=
  match structuredSummary with
  | some s =>
    if strTrim s ≠ "" then strTrim s
    else if strTrim fallbackText ≠ "" then strTrim fallbackText else ""
  | none => if strTrim fallbackText ≠ "" then strTrim fallbackText else ""

/-- Claim C7: the normalizer's summary follows the two-tier fallback
(structured summary, then fallback text, then empty), and every review
it returns carries exactly that summary. -/
theorem effectiveSummary_two_tier (structured : Option ReviewPayload)
    (fallbackText : String) :
    effectiveSummary structured fallbackText =
      summaryTwoTierSpec (structured.bind ReviewPayload.summary) fallbackText ∧
    (∀ r, normalizeReviewResult structured fallbackText = some r →
      r.summary = effectiveSummary structured fallbackText) := by
  constructor
  · unfold effectiveSummary summaryTwoTierSpec
    cases structured.bind ReviewPayload.summary with
    | none =>
      by_cases hf : strTrim fallbackText = "" <;> simp [hf]
    | some s =>
      by_cases hs : strTrim s = ""
      · by_cases hf : strTrim fallbackText = "" <;> simp [hs, hf]
      · simp [hs]
  · intro r hr
    rw [(normalizeReviewResult_some_inv structured fallbackText r hr).1]

/-- Sample payload for the C7 witness: a whitespace-padded structured
summary and no comments array. -/
def c7SamplePayload : ReviewPayload :=
  { summary := some "  overall summary  ", comments := none }

/-- The review produced from `c7SamplePayload`. -/
def c7SampleReview : Review :=
  { summary := "overall summary", comments := [] }

/-- Witness for C7: a payload with a whitespace-padded structured
summary yields that summary trimmed. -/
theorem effectiveSummary_two_tier_witness :
    c7SampleReview.summary = effectiveSummary (some c7SamplePayload) "ignored text" :=
  (effectiveSummary_two_tier (some c7SamplePayload) "ignored text").2
    c7SampleReview (by decide)

/-- Claim C10: the coerced side is "LEFT" exactly when the raw side
field is the exact string "LEFT"; every other value is coerced to
"RIGHT"; and the validity of a comment never depends on its side
field, so an invalid side value never causes the comment to be
dropped. -/
theorem coerceComment_side (c : RawComment) :
    ((coerceComment c).side = "LEFT" ↔ c.side = some "LEFT") ∧
    (c.side ≠ some "LEFT" → (coerceComment c).side = "RIGHT") ∧
    (∀ s₁ s₂ : Option String,
      validComment (coerceComment { c with side := s₁ }) =
        validComment (coerceComment { c with side := s₂ })) := by
  refine ⟨?_, ?_, ?_⟩
  · by_cases h : c.side = some "LEFT" <;> simp [coerceComment, h]
  · intro h
    simp [coerceComment, h]
  · intro s₁ s₂
    simp [validComment, coerceComment]

/-- Sample raw comment for the C10 witness, carrying the lowercase
side value "left". -/
def c10SampleComment : RawComment :=
  { path := some "lib/util.ts", line := JsNumber.finite 12, side := some "left"
    body := some "rename this", severity := none }

/-- Witness for C10: a lowercase "left" side is coerced to "RIGHT" and
the comment is still kept by the validity filter. -/
theorem coerceComment_side_witness :
    (coerceComment c10SampleComment).side = "RIGHT" ∧
    validComment (coerceComment { c10SampleComment with side := some "left" }) =
      validComment (coerceComment { c10SampleComment with side := some "LEFT" }) :=
  ⟨(coerceComment_side c10SampleComment).2.1 (by decide),
   (coerceComment_side c10SampleComment).2.2 (some "left") (some "LEFT")⟩

/-! ## Publication Selector

From `review-agent.mjs` lines 497-518 (`postReviewComments`) and
lines 612-625 (the tail of `main`).  A publication is modelled as the
single platform write the code issues. -/

/-- One inline comment as sent to the platform's review-creation
endpoint. -/
structure ApiComment where
  path : String
  line : JsNumber
  side : String
  body : String
deriving DecidableEq, Repr

/-- The single platform write issued for a review: either one plain
conversation comment (`octokit.issues.createComment`) or one
review-creation call with attached inline comments
(`octokit.pulls.createReview`). -/
inductive PubAction where
  | issueComment (body : String)
  | createReview (body : String) (comments : List ApiComment)
deriving DecidableEq, Repr

/-- The per-comment decoration in `postReviewComments`
(lines 500-508): the body is prefixed with the severity label in
parentheses when a severity is present, and a falsy side falls back to
"RIGHT". -/
def decorateComment (c : NormComment) : ApiComment :=
  { path := c.path
    line := c.line
    side := if c.side = "" then "RIGHT" else c.side
    body := if c.severity ≠ "" then "(" ++ c.severity ++ ") " ++ c.body else c.body }

/-- The review-creation call built by `postReviewComments`
(lines 510-517): its body is `review.summary || "자동 코드 리뷰"` and its
comments are the decorated review comments. -/
def postReviewCommentsCall (review : Review) : PubAction :=
  PubAction.createReview
    (if review.summary = "" then "자동 코드 리뷰" else review.summary)
    (review.comments.map decorateComment)

/-- The publication decision at the end of `main` (lines 612-625):
null review → fixed placeholder comment; non-empty comments → one
review-creation call; otherwise → the summary (or a fixed default) as
a plain comment. -/
def mainPublish (review : Option Review) : PubAction :=
  match review with
  | none => PubAction.issueComment "리뷰 결과를 생성하지 못했습니다. (빈 응답)"
  | some r =>
    if 0 < r.comments.length then postReviewCommentsCall r
    else PubAction.issueComment
      (if r.summary = "" then "리뷰 결과를 생성하지 못했습니다. (요약 없음)" else r.summary)

/-- Payload exhibiting the C1 counterexample: an empty structured
summary together with one valid comment. -/
def c1SamplePayload : ReviewPayload :=
  { summary := some ""
    comments := some
      [ { path := some "a.ts", line := JsNumber.finite 5, side := none
          body := some "fix X", severity := none } ] }

/-- The review produced from `c1SamplePayload` with empty fallback
text: one comment, empty summary. -/
def c1SampleReview : Review :=
  { summary := ""
    comments := [ { path := "a.ts", line := JsNumber.finite 5, body := "fix X"
                    side := "RIGHT", severity := "" } ] }

/-- Counterexample to C1 as stated: for the payload with an empty
structured summary and one valid comment, normalization yields a
review with a non-empty comments list and an empty summary, and the
review-creation call issued for it carries the fixed default body
"자동 코드 리뷰", which is not the review's overall summary. -/
theorem mainPublish_counterexample :
    normalizeReviewResult (some c1SamplePayload) "" = some c1SampleReview ∧
    c1SampleReview.comments ≠ [] ∧
    c1SampleReview.summary = "" ∧
    mainPublish (some c1SampleReview) =
      PubAction.createReview "자동 코드 리뷰"
        [ { path := "a.ts", line := JsNumber.finite 5, side := "RIGHT", body := "fix X" } ] ∧
    ("자동 코드 리뷰" : String) ≠ c1SampleReview.summary := by
  refine ⟨by decide, by decide, rfl, by decide, by decide⟩

/-- Claim C1 as amended: a null review is published as the fixed
placeholder comment; a review with comments is published as exactly
one review-creation call whose attached comments are the review's
comments (severity label prefixed in parentheses when present) and
whose body is the overall summary when that summary is non-empty and
the fixed default body "자동 코드 리뷰" otherwise; a review without
comments (whose summary is then necessarily non-empty) is published as
a single plain conversation comment carrying the summary. -/
theorem mainPublish_decision_order (structured : Option ReviewPayload)
    (fallbackText : String) :
    (normalizeReviewResult structured fallbackText = none →
      mainPublish (normalizeReviewResult structured fallbackText) =
        PubAction.issueComment "리뷰 결과를 생성하지 못했습니다. (빈 응답)") ∧
    (∀ r, normalizeReviewResult structured fallbackText = some r → r.comments ≠ [] →
      mainPublish (some r) =
        PubAction.createReview
          (if r.summary = "" then "자동 코드 리뷰" else r.summary)
          (r.comments.map decorateComment)) ∧
    (∀ r, normalizeReviewResult structured fallbackText = some r → r.comments = [] →
      r.summary ≠ "" ∧ mainPublish (some r) = PubAction.issueComment r.summary) := by
  refine ⟨?_, ?_, ?_⟩
  · intro h
    rw [h]
    rfl
  · intro r _ hne
    have hlen : 0 < r.comments.length := List.length_pos.mpr hne
    simp [mainPublish, postReviewCommentsCall, hlen]
  · intro r hr hempty
    have hsum : r.summary ≠ "" := by
      rcases (normalizeReviewResult_null_contract structured fallbackText).2 r hr with h | h
      · exact absurd hempty h
      · exact h
    refine ⟨hsum, ?_⟩
    simp [mainPublish, hempty, hsum]

/-- Witness for the amended C1 at concrete inputs: the summary-only
payload is published as a plain comment carrying its summary, and a
null normalization result is published as the fixed placeholder. -/
theorem mainPublish_decision_order_witness :
    (c7SampleReview.summary ≠ "" ∧
      mainPublish (some c7SampleReview) = PubAction.issueComment c7SampleReview.summary) ∧
    mainPublish (normalizeReviewResult none "") =
      PubAction.issueComment "리뷰 결과를 생성하지 못했습니다. (빈 응답)" :=
  ⟨(mainPublish_decision_order (some c7SamplePayload) "ignored text").2.2
      c7SampleReview (by decide) rfl,
   (mainPublish_decision_order none "").1 (by decide)⟩

/-! ## Agent Session Driver

From `runClaudeReview` in `review-agent.mjs` lines 545-593 (and the
free-text variant in `part_000` lines 78-122, which is the same loop
without the structured output).  The asynchronous message stream is
modelled as the list of messages it yields, in order; throwing is
modelled as `Except.error`. -/

/-- One content block of an assistant message. -/
inductive Block where
  | text (s : String)
  | other
deriving DecidableEq, Repr

/-- The text of a text block, if any. -/
def blockText : Block → Option String
  | Block.text s => some s
  | Block.other => none

/-- One message of the agent stream: an assistant message carrying its
content blocks (`none` when `message.content` is not an array), the
terminal result message with its subtype, `is_error` flag, optional
final text, optional structured payload and optional error list, or
any other event kind. -/
inductive Message where
  | assistant (content : Option (List Block))
  | result (subtype : String) (isError : Bool) (finalText : Option String)
      (structuredOutput : Option ReviewPayload) (errors : Option (List String))
  | other
deriving DecidableEq, Repr

/-- Is this the terminal result message? -/
def Message.isResult : Message → Bool
  | Message.result _ _ _ _ _ => true
  | _ => false

/-- `extractTextBlocks` (lines 394-401): keep the text blocks, join
them with newlines and trim. -/
def extractTextBlocks (content : Option (List Block)) : String :=
  match content with
  | none => ""
  | some blocks => strTrim (joinSep "\n" (blocks.filterMap blockText))

/-- The failure reason thrown on a non-success terminal message
(line 587): `message.errors?.join("\n")` when that is truthy,
otherwise the generic subtype text. -/
def failReason (errors : Option (List String)) (subtype : String) : String :=
  match errors with
  | some es =>
    if joinSep "\n" es = "" then "Agent run failed with subtype " ++ subtype
    else joinSep "\n" es
  | none => "Agent run failed with subtype " ++ subtype

/-- What `runClaudeReview` returns on success: the structured payload
captured from the terminal message and the fallback text
(`finalOutput || assistantFallback`). -/
structure RunOutcome where
  structured : Option ReviewPayload
  fallbackText : String
deriving DecidableEq, Repr

/-- The driver's stream-consumption loop (lines 573-592), carrying the
current `assistantFallback` value.  A success terminal message stops
the iteration at once; any other terminal message throws; a stream
that ends without a terminal message falls through to the final
return. -/
def runLoop : List Message → String → Except String RunOutcome
  | [], assistantFallback =>
    Except.ok { structured := none, fallbackText := assistantFallback }
  | Message.assistant content :: rest, assistantFallback =>
    runLoop rest
      (if extractTextBlocks content = "" then assistantFallback else extractTextBlocks content)
  | Message.result subtype isError finalText structuredOutput errors :: _, assistantFallback =>
    if subtype = "success" ∧ isError = false then
      Except.ok
        { structured := structuredOutput
          fallbackText :=
            if strTrim (finalText.getD "") = "" then assistantFallback
            else strTrim (finalText.getD "") }
    else Except.error (failReason errors subtype)
  | Message.other :: rest, assistantFallback => runLoop rest assistantFallback

/-- `runClaudeReview` applied to the messages its stream yields. -/
def runClaudeReview (msgs : List Message) : Except String RunOutcome :=
  runLoop msgs ""

/-- The non-empty extracted texts of the assistant messages of a
stream, in order. -/
def assistantTexts : List Message → List String
  | [] => []
  | Message.assistant content :: rest =>
    if extractTextBlocks content = "" then assistantTexts rest
    else extractTextBlocks content :: assistantTexts rest
  | _ :: rest => assistantTexts rest

/-- The last element of a list, or the default when the list is
empty. -/
def lastOr (d : String) : List String → String
  | [] => d
  | x :: xs => lastOr x xs

/-- The text the driver retains as `assistantFallback` after consuming
a stream: the last non-empty assistant text, or "" when there is
none. -/
def lastAssistantText (msgs : List Message) : String :=
  lastOr "" (assistantTexts msgs)

/-- Consuming a result-free prefix only updates the retained fallback
text, to the last non-empty assistant text of the prefix. -/
theorem runLoop_append (pre l : List Message) :
    ∀ af : String, (∀ m ∈ pre, Message.isResult m = false) →
      runLoop (pre ++ l) af = runLoop l (lastOr af (assistantTexts pre)) := by
  induction pre with
  | nil => intro af _; rfl
  | cons m rest ih =>
    intro af h
    have hrest : ∀ x ∈ rest, Message.isResult x = false :=
      fun x hx => h x (List.mem_cons_of_mem m hx)
    cases m with
    | assistant content =>
      by_cases ht : extractTextBlocks content = ""
      · simpa [runLoop, assistantTexts, ht] using ih af hrest
      · simpa [runLoop, assistantTexts, ht, lastOr] using ih (extractTextBlocks content) hrest
    | result s e f so errs =>
      have := h _ (List.mem_cons_self _ rest)
      simp [Message.isResult] at this
    | other =>
      simpa [runLoop, assistantTexts] using ih af hrest

/-- Claim C3: after any result-free prefix, a terminal message with
subtype "success" and `is_error` false makes the driver capture the
structured payload and final text and stop consuming the stream (the
outcome is the same whatever follows the terminal message); any other
terminal message makes it throw an error whose message is the
newline-joined error list of the message when that join is non-empty,
and "Agent run failed with subtype X" when no error list is given. -/
theorem runClaudeReview_terminal (pre suf : List Message) (subtype : String)
    (isError : Bool) (finalText : Option String)
    (structuredOutput : Option ReviewPayload) (errors : Option (List String))
    (h : ∀ m ∈ pre, Message.isResult m = false) :
    (subtype = "success" ∧ isError = false →
      runClaudeReview
          (pre ++ Message.result subtype isError finalText structuredOutput errors :: suf) =
        Except.ok
          { structured := structuredOutput
            fallbackText :=
              if strTrim (finalText.getD "") = "" then lastAssistantText pre
              else strTrim (finalText.getD "") } ∧
      runClaudeReview
          (pre ++ Message.result subtype isError finalText structuredOutput errors :: suf) =
        runClaudeReview
          (pre ++ [Message.result subtype isError finalText structuredOutput errors])) ∧
    (¬(subtype = "success" ∧ isError = false) →
      runClaudeReview
          (pre ++ Message.result subtype isError finalText structuredOutput errors :: suf) =
        Except.error (failReason errors subtype)) ∧
    (∀ es, errors = some es → joinSep "\n" es ≠ "" →
      failReason errors subtype = joinSep "\n" es) ∧
    (errors = none → failReason errors subtype = "Agent run failed with subtype " ++ subtype) := by
  have key : ∀ tail : List Message,
      runClaudeReview (pre ++ tail) = runLoop tail (lastAssistantText pre) :=
    fun tail => runLoop_append pre tail "" h
  refine ⟨fun hs => ⟨?_, ?_⟩, fun hs => ?_, fun es he hne => ?_, fun he => ?_⟩
  · rw [key]
    simp [runLoop, hs]
  · rw [key, key]
    simp [runLoop]
  · rw [key]
    simp [runLoop, hs]
  · subst he
    simp [failReason, hne]
  · subst he
    rfl

/-- Stream used by the C3 witness: one assistant message, then a
failing terminal message carrying an error list, then a trailing
event. -/
def c3Prefix : List Message :=
  [Message.assistant (some [Block.text "partial analysis"])]

/-- Witness for C3 at a concrete stream: a terminal message with
subtype "error_max_turns" and a two-element error list makes the
driver throw their newline-joined concatenation, and a success
terminal with empty errors would use the generic reason. -/
theorem runClaudeReview_terminal_witness :
    runClaudeReview
        (c3Prefix ++
          Message.result "error_max_turns" true none none (some ["boom", "crash"]) ::
            [Message.other]) =
      Except.error "boom\ncrash" ∧
    failReason none "error_max_turns" = "Agent run failed with subtype error_max_turns" := by
  have h := runClaudeReview_terminal c3Prefix [Message.other] "error_max_turns" true
    none none (some ["boom", "crash"]) (by decide)
  refine ⟨?_, ?_⟩
  · have he := h.2.1 (by decide)
    have hv : failReason (some ["boom", "crash"]) "error_max_turns" = "boom\ncrash" := by decide
    rw [he, hv]
  · exact (runClaudeReview_terminal c3Prefix [] "error_max_turns" true none none none
      (by decide)).2.2.2 rfl

/-- `assistantTexts` distributes over stream concatenation. -/
theorem assistantTexts_append (a b : List Message) :
    assistantTexts (a ++ b) = assistantTexts a ++ assistantTexts b := by
  induction a with
  | nil => rfl
  | cons m rest ih =>
    cases m with
    | assistant content =>
      by_cases ht : extractTextBlocks content = "" <;> simp [assistantTexts, ht, ih]
    | result s e f so errs => simpa [assistantTexts] using ih
    | other => simpa [assistantTexts] using ih

/-- `lastOr` of a list ending in `x` is `x`. -/
theorem lastOr_concat (x : String) (l : List String) :
    ∀ d : String, lastOr d (l ++ [x]) = x := by
  induction l with
  | nil => intro d; rfl
  | cons y ys ih => intro d; simpa [lastOr] using ih y

/-- Claim C8: the driver retains only the last non-empty assistant
text (a further assistant message replaces it when its extracted text
is non-empty and leaves it unchanged otherwise); a stream that ends
without any terminal message returns that retained text; and a
success terminal message makes the returned text the terminal's
trimmed result text when that is non-empty and the retained assistant
text otherwise. -/
theorem runClaudeReview_fallback_text (pre : List Message) (finalText : Option String)
    (structuredOutput : Option ReviewPayload) (errors : Option (List String))
    (content : Option (List Block))
    (h : ∀ m ∈ pre, Message.isResult m = false) :
    runClaudeReview pre =
      Except.ok { structured := none, fallbackText := lastAssistantText pre } ∧
    runClaudeReview
        (pre ++ [Message.result "success" false finalText structuredOutput errors]) =
      Except.ok
        { structured := structuredOutput
          fallbackText :=
            if strTrim (finalText.getD "") = "" then lastAssistantText pre
            else strTrim (finalText.getD "") } ∧
    lastAssistantText (pre ++ [Message.assistant content]) =
      (if extractTextBlocks content = "" then lastAssistantText pre
       else extractTextBlocks content) := by
  have key : ∀ tail : List Message,
      runClaudeReview (pre ++ tail) = runLoop tail (lastAssistantText pre) :=
    fun tail => runLoop_append pre tail "" h
  refine ⟨?_, ?_, ?_⟩
  · have := key []
    simpa [runLoop] using this
  · rw [key]
    simp [runLoop]
  · unfold lastAssistantText
    rw [assistantTexts_append]
    by_cases ht : extractTextBlocks content = ""
    · simp [assistantTexts, ht]
    · simp [assistantTexts, ht, lastOr_concat]

/-- Stream used by the C8 witness: two non-empty assistant texts with
an empty one and an unrelated event in between. -/
def c8Prefix : List Message :=
  [ Message.assistant (some [Block.text "draft one"])
  , Message.assistant (some [])
  , Message.other
  , Message.assistant (some [Block.text "final review"]) ]

/-- Witness for C8 at a concrete stream: with no terminal message the
driver returns the last non-empty assistant text, and a success
terminal whose result text trims to empty also falls back to it. -/
theorem runClaudeReview_fallback_text_witness :
    runClaudeReview c8Prefix =
      Except.ok { structured := none, fallbackText := "final review" } ∧
    runClaudeReview (c8Prefix ++ [Message.result "success" false (some "  ") none none]) =
      Except.ok { structured := none, fallbackText := "final review" } := by
  have h := runClaudeReview_fallback_text c8Prefix (some "  ") none none none (by decide)
  exact ⟨h.1.trans (congrArg Except.ok (by decide)),
    h.2.1.trans (congrArg Except.ok (by decide))⟩

/-! ## Failure Classifier and exit policy

From `isAnthropicCreditError` / `isAnthropicModelNotFound`
(`review-agent.mjs` lines 235-243, identical in every variant), the
`main().catch` handler of the agent variants (lines 627-660), the
`main().catch` handler of the single-call variant (lines 306-344,
which tests `String(baseMsg).includes("model:")` instead of
`isAnthropicModelNotFound`), and the minimal variant's handler
(`part_001` lines 102-105, which only logs and calls
`process.exit(1)`).  An error is modelled by its reported message
(`err?.error?.error?.message || err?.message || ""`). -/

/-- `isAnthropicCreditError` (line 235-238): case-insensitive
substring test for "credit balance is too low". -/
def isAnthropicCreditError (msg : String) : Bool :=
  containsSub (toLowerStr msg) "credit balance is too low"

/-- `isAnthropicModelNotFound` (lines 240-243): case-insensitive
substring test for both "model:" and "not_found". -/
def isAnthropicModelNotFound (msg : String) : Bool :=
  containsSub (toLowerStr msg) "model:" && containsSub (toLowerStr msg) "not_found"

/-- The failure categories of the spec's data model. -/
inductive FailureCategory where
  | creditExhausted
  | modelNotFound
  | generic
deriving DecidableEq, Repr

/-- The classification performed by the agent variants' catch handler
(lines 632, 642): `isAnthropicCreditError`, then
`isAnthropicModelNotFound`, then generic. -/
def classifyAgentFailure (msg : String) : FailureCategory :=
  if isAnthropicCreditError msg then FailureCategory.creditExhausted
  else if isAnthropicModelNotFound msg then FailureCategory.modelNotFound
  else FailureCategory.generic

/-- The classification performed by the single-call variant's catch
handler (lines 312, 323): `isAnthropicCreditError`, then the
case-sensitive test `String(baseMsg).includes("model:")` alone, then
generic. -/
def classifySingleCallFailure (msg : String) : FailureCategory :=
  if isAnthropicCreditError msg then FailureCategory.creditExhausted
  else if containsSub msg "model:" then FailureCategory.modelNotFound
  else FailureCategory.generic

/-- The optional `- request_id:` line of the failure comments. -/
def reqPart : Option String → String
  | some r => "- request_id: " ++ r ++ "\n"
  | none => ""

/-- Fixed prefix of the credit-exhausted comment template. -/
def creditHeader : String :=
  "⚠️ 리뷰봇이 Anthropic API를 호출하지 못했습니다: **크레딧 부족**\n\n- 메시지: "

/-- The credit-exhausted comment (lines 633-638). -/
def creditComment (msg : String) (requestId : Option String) : String :=
  creditHeader ++ msg ++ "\n" ++ reqPart requestId ++
    "\n👉 Anthropic Console의 Plans & Billing에서 크레딧을 충전/결제 설정해주세요."

/-- Fixed prefix of the model-not-found comment template. -/
def modelHeader : String :=
  "⚠️ 리뷰봇이 Anthropic API를 호출하지 못했습니다: **모델을 찾을 수 없음**\n\n- 요청 모델: `"

/-- The model-not-found comment (lines 643-649). -/
def modelNotFoundComment (modelEnv msg : String) (requestId : Option String) : String :=
  modelHeader ++ modelEnv ++ "`\n- 메시지: " ++ msg ++ "\n" ++ reqPart requestId ++
    "\n👉 workflow input의 `model` 값을 사용 가능한 모델로 바꿔주세요."

/-- Fixed prefix of the generic failure comment template. -/
def genericHeader : String :=
  "⚠️ 리뷰봇 실행 중 오류가 발생했습니다.\n\n- 메시지: "

/-- The generic failure comment (lines 653-658). -/
def genericFailureComment (msg : String) (requestId : Option String) : String :=
  genericHeader ++ msg ++ "\n" ++ reqPart requestId ++
    "\n(상세 로그는 Actions 실행 로그를 확인해주세요.)"

/-- The pre-templated comment of each failure category. -/
def failureCommentFor (cat : FailureCategory) (msg modelEnv : String)
    (requestId : Option String) : String :=
  match cat with
  | FailureCategory.creditExhausted => creditComment msg requestId
  | FailureCategory.modelNotFound => modelNotFoundComment modelEnv msg requestId
  | FailureCategory.generic => genericFailureComment msg requestId

/-- What a catch handler does: the conversation comments it posts and
the status it exits with. -/
structure CatchOutcome where
  posted : List String
  exitCode : Nat
deriving DecidableEq, Repr

/-- The agent variants' `main().catch` handler (lines 627-660): post
the comment of the classified category, then `process.exit(0)` on
every branch. -/
def mainCatchAgent (msg modelEnv : String) (requestId : Option String) : CatchOutcome :=
  if isAnthropicCreditError msg then
    { posted := [creditComment msg requestId], exitCode := 0 }
  else if isAnthropicModelNotFound msg then
    { posted := [modelNotFoundComment modelEnv msg requestId], exitCode := 0 }
  else
    { posted := [genericFailureComment msg requestId], exitCode := 0 }

/-- The minimal variant's `main().catch` handler (`part_001` lines
102-105): `console.error(e); process.exit(1)` — no comment, failing
status. -/
def mainCatchMinimal (_msg : String) : CatchOutcome :=
  { posted := [], exitCode := 1 }

/-- Two strings with fixed prefixes that differ at character index `k`
are different, whatever follows the prefixes. -/
theorem append_head_ne (h₁ h₂ r₁ r₂ : String) (k : Nat)
    (hk₁ : k < h₁.data.length) (hk₂ : k < h₂.data.length)
    (hne : h₁.data[k]? ≠ h₂.data[k]?) :
    h₁ ++ r₁ ≠ h₂ ++ r₂ := by
  intro he
  apply hne
  have hd : (h₁ ++ r₁).data = (h₂ ++ r₂).data := congrArg String.data he
  have e₁ : (h₁ ++ r₁).data = h₁.data ++ r₁.data := rfl
  have e₂ : (h₂ ++ r₂).data = h₂.data ++ r₂.data := rfl
  calc h₁.data[k]? = (h₁.data ++ r₁.data)[k]? := (List.getElem?_append_left hk₁).symm
    _ = (h₂.data ++ r₂.data)[k]? := by rw [← e₁, ← e₂, hd]
    _ = h₂.data[k]? := List.getElem?_append_left hk₂

/-- Counterexample to C5 as stated: the single-call variant's handler
classifies the message "Unknown model: claude-nonexistent" — which
contains "model:" but not "not_found", so the claim's rules make it
Generic — as ModelNotFound. -/
theorem classifySingleCallFailure_counterexample :
    isAnthropicCreditError "Unknown model: claude-nonexistent" = false ∧
    isAnthropicModelNotFound "Unknown model: claude-nonexistent" = false ∧
    classifySingleCallFailure "Unknown model: claude-nonexistent" =
      FailureCategory.modelNotFound ∧
    FailureCategory.modelNotFound ≠ FailureCategory.generic := by
  refine ⟨by decide, by decide, by decide, by decide⟩

/-- Claim C5 as amended: classification inspects only the error's
reported message; in every variant a message containing
"credit balance is too low" (case-insensitively) is CreditExhausted;
in the agent variants a remaining message is ModelNotFound exactly
when it contains both "model:" and "not_found" case-insensitively,
while in the single-call variant a remaining message is ModelNotFound
exactly when it contains the case-sensitive substring "model:",
regardless of "not_found"; every other message is Generic; and the
three categories' pre-templated comments are pairwise distinct. -/
theorem classifyFailure_rules (msg modelEnv : String) (requestId : Option String) :
    (isAnthropicCreditError msg = true →
      classifyAgentFailure msg = FailureCategory.creditExhausted ∧
      classifySingleCallFailure msg = FailureCategory.creditExhausted) ∧
    (isAnthropicCreditError msg = false → isAnthropicModelNotFound msg = true →
      classifyAgentFailure msg = FailureCategory.modelNotFound) ∧
    (isAnthropicCreditError msg = false → isAnthropicModelNotFound msg = false →
      classifyAgentFailure msg = FailureCategory.generic) ∧
    (isAnthropicCreditError msg = false → containsSub msg "model:" = true →
      classifySingleCallFailure msg = FailureCategory.modelNotFound) ∧
    (isAnthropicCreditError msg = false → containsSub msg "model:" = false →
      classifySingleCallFailure msg = FailureCategory.generic) ∧
    creditComment msg requestId ≠ modelNotFoundComment modelEnv msg requestId ∧
    creditComment msg requestId ≠ genericFailureComment msg requestId ∧
    modelNotFoundComment modelEnv msg requestId ≠ genericFailureComment msg requestId := by
  refine ⟨?_, ?_, ?_, ?_, ?_, ?_, ?_, ?_⟩
  · intro h
    exact ⟨by simp [classifyAgentFailure, h], by simp [classifySingleCallFailure, h]⟩
  · intro h1 h2
    simp [classifyAgentFailure, h1, h2]
  · intro h1 h2
    simp [classifyAgentFailure, h1, h2]
  · intro h1 h2
    simp [classifySingleCallFailure, h1, h2]
  · intro h1 h2
    simp [classifySingleCallFailure, h1, h2]
  · exact append_head_ne creditHeader modelHeader _ _ 37 (by decide) (by decide) (by decide)
  · exact append_head_ne creditHeader genericHeader _ _ 6 (by decide) (by decide) (by decide)
  · exact append_head_ne modelHeader genericHeader _ _ 6 (by decide) (by decide) (by decide)

/-- Witness for the amended C5: a casing-mangled credit message is
classified CreditExhausted by both handlers, and an uppercase
"MODEL:" message is Generic for the single-call handler's
case-sensitive test. -/
theorem classifyFailure_rules_witness :
    (classifyAgentFailure "Your CREDIT Balance is too LOW to access the Claude API." =
        FailureCategory.creditExhausted ∧
      classifySingleCallFailure "Your CREDIT Balance is too LOW to access the Claude API." =
        FailureCategory.creditExhausted) ∧
    classifySingleCallFailure "MODEL: X NOT_FOUND" = FailureCategory.generic :=
  ⟨(classifyFailure_rules "Your CREDIT Balance is too LOW to access the Claude API."
      "m" none).1 (by decide),
   (classifyFailure_rules "MODEL: X NOT_FOUND" "m" none).2.2.2.2.1 (by decide) (by decide)⟩

/-- Counterexample to C4 as stated: the minimal variant's handler
exits with the failing status 1 (and posts nothing) for every error,
including an agent-session failure. -/
theorem mainCatchMinimal_counterexample :
    (mainCatchMinimal "Agent run failed with subtype error_max_turns").exitCode = 1 ∧
    (mainCatchMinimal "Agent run failed with subtype error_max_turns").posted = [] ∧
    (1 : Nat) ≠ 0 := by
  refine ⟨rfl, rfl, by decide⟩

/-- Claim C4 as amended: in the agent variants, every error is
classified, the corresponding comment is the single publication, and
the process exits with status 0; in the minimal single-call variant
(`part_001`) every error exits with the failing status 1 and posts no
comment. -/
theorem mainCatch_exit_policy (msg modelEnv : String) (requestId : Option String) :
    (mainCatchAgent msg modelEnv requestId).exitCode = 0 ∧
    (mainCatchAgent msg modelEnv requestId).posted =
      [failureCommentFor (classifyAgentFailure msg) msg modelEnv requestId] ∧
    (mainCatchMinimal msg).exitCode = 1 ∧
    (mainCatchMinimal msg).posted = [] := by
  refine ⟨?_, ?_, rfl, rfl⟩ <;>
  · by_cases h1 : isAnthropicCreditError msg <;>
      by_cases h2 : isAnthropicModelNotFound msg <;>
      simp [mainCatchAgent, classifyAgentFailure, failureCommentFor, h1, h2]
